import Mathlib

/-!
Shallow embedding of the libtest-mimic test-execution engine
(src/lib.rs, src/printer.rs, src/args.rs) and proofs checking the
natural-language specification against it.

The data model and operations below are translated from the Rust source:
`Test`, `Outcome`, `Conclusion`, `Arguments.is_ignored`,
`Arguments.is_filtered_out`, the `handle_outcome` closure and the
`run_tests` pipeline of src/lib.rs, and the summary line of
src/printer.rs.  Machine integers (`u64`, `usize`) are modelled as `Nat`:
the only arithmetic performed on them is incrementing counters bounded by
the catalog length and one subtraction `len_before - len_after` that
cannot underflow, so no wrap-around modelling is needed.

Concurrency is modelled by making the nondeterministic completion order of
the worker pool an explicit parameter `arrival`: the mpsc channel of the
source delivers every sent `(outcome, test)` message exactly once, in some
order, so theorems about the concurrent path quantify over an arbitrary
`arrival` list that is a permutation of the deterministic completion list.
-/

/-- Possible values for the `--color` option (src/args.rs). -/
inductive ColorSetting where
  | Auto
  | Always
  | Never
  deriving DecidableEq, Repr

/-- Possible values for the `--format` option.  The enum in src/args.rs has
only `Pretty` and `Terse`; the match arms of src/printer.rs additionally
require a `Json` variant (`FormatSetting::Json => unimplemented!()`), so the
embedding carries all three and the CLI-level parser below accepts only the
first two, as in src/args.rs. -/
inductive FormatSetting where
  | Pretty
  | Terse
  | Json
  deriving DecidableEq, Repr

/-- `FromStr for FormatSetting` (src/args.rs lines 202-211): only "pretty"
and "terse" parse; anything else (in particular "json") is rejected with
"invalid output format". -/
def FormatSetting.from_str : String → Except String FormatSetting
  | "pretty" => Except.ok FormatSetting.Pretty
  | "terse" => Except.ok FormatSetting.Terse
  | _ => Except.error "invalid output format"

/-- Description of a single test (src/lib.rs `struct Test<D>`). -/
structure Test (D : Type) where
  name : String
  kind : String
  is_ignored : Bool
  is_bench : Bool
  data : D
  deriving DecidableEq, Repr

/-- `Test::test` (src/lib.rs lines 84-92), instantiated at `D = ()`:
empty kind, not ignored, not a benchmark. -/
def Test.test (name : String) : Test Unit :=
  { name := name, kind := "", is_ignored := false, is_bench := false, data := () }

/-- `Test::bench` (src/lib.rs lines 96-104), instantiated at `D = ()`. -/
def Test.bench (name : String) : Test Unit :=
  { name := name, kind := "", is_ignored := false, is_bench := true, data := () }

/-- The outcome of performing a test (src/lib.rs `enum Outcome`). -/
inductive Outcome where
  | Passed
  | Failed (msg : Option String)
  | Ignored
  | Measured (avg : Nat) (variance : Nat)
  deriving DecidableEq, Repr

/-- True exactly on `Outcome::Passed`. -/
def Outcome.is_passed : Outcome → Bool
  | Outcome.Passed => true
  | _ => false

/-- True exactly on `Outcome::Failed`. -/
def Outcome.is_failed : Outcome → Bool
  | Outcome.Failed _ => true
  | _ => false

/-- True exactly on `Outcome::Ignored`. -/
def Outcome.is_ign : Outcome → Bool
  | Outcome.Ignored => true
  | _ => false

/-- True exactly on `Outcome::Measured`. -/
def Outcome.is_measured : Outcome → Bool
  | Outcome.Measured _ _ => true
  | _ => false

/-- The run summary returned by `run_tests` (src/lib.rs `struct Conclusion`,
lines 138-156).  Its five counters are `num_filtered_out`, `num_passed`,
`num_failed`, `num_ignored` and `num_benches`; there is no measured
counter. -/
structure Conclusion where
  num_filtered_out : Nat
  num_passed : Nat
  num_failed : Nat
  num_ignored : Nat
  num_benches : Nat
  deriving DecidableEq, Repr

/-- `Conclusion::empty` (src/lib.rs lines 179-187). -/
def Conclusion.empty : Conclusion :=
  { num_filtered_out := 0, num_passed := 0, num_failed := 0
    num_ignored := 0, num_benches := 0 }

/-- `Conclusion::has_failed` (src/lib.rs lines 175-177). -/
def Conclusion.has_failed (c : Conclusion) : Bool :=
  decide (c.num_failed > 0)

/-- The resolved configuration record (src/args.rs `struct Arguments`).
Field names follow the source; for the two fields whose names differ
between src/args.rs and their uses in src/lib.rs
(`filter`/`filter_string`, `test_threads`/`num_threads`), the names used
by the engine code in src/lib.rs are kept. -/
structure Arguments where
  include_ignored : Bool
  ignored : Bool
  test : Bool
  bench : Bool
  list : Bool
  nocapture : Bool
  exact : Bool
  quiet : Bool
  num_threads : Option Nat
  logfile : Option String
  skip : List String
  color : Option ColorSetting
  format : Option FormatSetting
  filter_string : Option String
  deriving DecidableEq, Repr

/-- The `Default` derive of src/args.rs: all flags false, all options
absent, empty skip list. -/
def Arguments.default : Arguments :=
  { include_ignored := false, ignored := false, test := false, bench := false
    list := false, nocapture := false, exact := false, quiet := false
    num_threads := none, logfile := none, skip := []
    color := none, format := none, filter_string := none }

/-- Helper for Rust's `str::contains`: does `pat` occur at the start of
`s`? -/
def charsStart : List Char → List Char → Bool
  | [], _ => true
  | _ :: _, [] => false
  | p :: ps, c :: cs => p == c && charsStart ps cs

/-- Helper for Rust's `str::contains`: does `pat` occur anywhere in `s`? -/
def charsSub (pat : List Char) : List Char → Bool
  | [] => charsStart pat []
  | c :: cs => charsStart pat (c :: cs) || charsSub pat cs

/-- Rust's `haystack.contains(needle)` substring check, on code points. -/
def strContains (haystack needle : String) : Bool :=
  charsSub needle.toList haystack.toList

/-- `Arguments::is_ignored` (src/lib.rs lines 192-196).  Note that the flag
consulted is `self.ignored` (the `--ignored` flag); `include_ignored` is
never read by the engine. -/
def Arguments.is_ignored {D : Type} (args : Arguments) (t : Test D) : Bool :=
  (t.is_ignored && !args.ignored)
    || (t.is_bench && args.test)
    || (!t.is_bench && args.bench)

/-- `Arguments::is_filtered_out` (src/lib.rs lines 198-218): a set filter
string that fails to match (equality when `exact`, substring otherwise)
filters the test out, and so does any matching skip pattern. -/
def Arguments.is_filtered_out {D : Type} (args : Arguments) (t : Test D) : Bool :=
  (match args.filter_string with
    | some filter =>
        if args.exact then t.name != filter else !(strContains t.name filter)
    | none => false)
  || args.skip.any (fun skip_filter =>
      if args.exact then t.name == skip_filter else strContains t.name skip_filter)

/-- The classifier the run pipeline implements: the filter pass of
`run_tests` (src/lib.rs lines 256-260) removes tests with
`is_filtered_out` before anything else, and the execution loops
(lines 302, 317) short-circuit tests with `is_ignored`. -/
inductive TestClass where
  | FilteredOut
  | Ignored
  | Runnable
  deriving DecidableEq, Repr

/-- Classification as performed by the source pipeline: `is_filtered_out`
first (src/lib.rs line 258), then `is_ignored` (lines 302/317), else
runnable. -/
def classify {D : Type} (args : Arguments) (t : Test D) : TestClass :=
  if args.is_filtered_out t then TestClass.FilteredOut
  else if args.is_ignored t then TestClass.Ignored
  else TestClass.Runnable

/-- The spec's wording of a pattern match: full name equality when exact is
set, substring match otherwise. -/
def spec_matches (ex : Bool) (pattern name : String) : Bool :=
  if ex then name == pattern else strContains name pattern

/-- Classification as worded by the specification (§4.1 and claim C2):
FilteredOut first (filter fails to match, or some skip pattern matches),
then Ignored when (is_ignored and the run does not include ignored tests)
or (is_bench and test-only) or (not is_bench and bench-only), else
Runnable. -/
def spec_classify {D : Type} (args : Arguments) (t : Test D) : TestClass :=
  let filtered_out :=
    (match args.filter_string with
      | some filter => !(spec_matches args.exact filter t.name)
      | none => false)
    || args.skip.any (fun p => spec_matches args.exact p t.name)
  if filtered_out then TestClass.FilteredOut
  else if (t.is_ignored && !args.ignored)
      || (t.is_bench && args.test) || (!t.is_bench && args.bench) then
    TestClass.Ignored
  else TestClass.Runnable

/-- The filtering pre-pass of `run_tests` (src/lib.rs lines 255-260):
only performed when a filter string or skip pattern is present; returns the
retained tests (in catalog order) and `num_filtered_out`. -/
def apply_filter {D : Type} (args : Arguments) (tests : List (Test D)) :
    List (Test D) × Nat :=
  if args.filter_string.isSome || !args.skip.isEmpty then
    let retained := tests.filter (fun t => !(args.is_filtered_out t))
    (retained, tests.length - retained.length)
  else
    (tests, 0)

/-- The outcome a retained test receives (src/lib.rs lines 302-306 and
317-328): ignored tests are short-circuited to `Outcome::Ignored` without
invoking the runner; all others get the runner's outcome. -/
def outcome_of {D : Type} (args : Arguments) (runner : Test D → Outcome)
    (t : Test D) : Outcome :=
  if args.is_ignored t then Outcome.Ignored else runner t

/-- The deterministic completion list: each retained test paired with the
outcome it receives, in catalog order.  This is the sequential-mode
delivery order, and the multiset dispatched into the channel in concurrent
mode. -/
def completions_seq {D : Type} (args : Arguments) (tests : List (Test D))
    (runner : Test D → Outcome) : List (Test D × Outcome) :=
  (apply_filter args tests).1.map (fun t => (t, outcome_of args runner t))

/-- The tests on which the runner is actually invoked (src/lib.rs lines
302-306 sequential, 317-328 concurrent): the retained tests that are not
short-circuited as ignored.  Identical in both modes. -/
def invoked_tests {D : Type} (args : Arguments) (tests : List (Test D)) :
    List (Test D) :=
  (apply_filter args tests).1.filter (fun t => !(args.is_ignored t))

/-- The `handle_outcome` closure of `run_tests` (src/lib.rs lines 276-293):
increments `num_benches` whenever the test is a benchmark, then increments
exactly one of `num_passed`/`num_failed`/`num_ignored` -- or nothing for
`Measured` -- and records failures. -/
def handle_outcome {D : Type}
    (acc : Conclusion × List (Test D × Option String))
    (co : Test D × Outcome) : Conclusion × List (Test D × Option String) :=
  let conclusion := acc.1
  let failed_tests := acc.2
  let t := co.1
  let conclusion :=
    if t.is_bench then
      { conclusion with num_benches := conclusion.num_benches + 1 }
    else conclusion
  match co.2 with
  | Outcome.Passed =>
      ({ conclusion with num_passed := conclusion.num_passed + 1 }, failed_tests)
  | Outcome.Failed msg =>
      ({ conclusion with num_failed := conclusion.num_failed + 1 },
        failed_tests ++ [(t, msg)])
  | Outcome.Ignored =>
      ({ conclusion with num_ignored := conclusion.num_ignored + 1 }, failed_tests)
  | Outcome.Measured _ _ => (conclusion, failed_tests)

/-- Draining the completions: fold `handle_outcome` over the delivered
`(test, outcome)` pairs, starting from the conclusion produced by the
filter pass (src/lib.rs lines 298-338). -/
def drain {D : Type} (num_filtered_out : Nat)
    (completions : List (Test D × Outcome)) :
    Conclusion × List (Test D × Option String) :=
  completions.foldl handle_outcome
    ({ Conclusion.empty with num_filtered_out := num_filtered_out }, [])

/-- Which execution path `run_tests` takes (src/lib.rs line 296): the
sequential main-thread loop only when `num_threads == Some(1)`; every
other value -- `None`, `Some(0)`, `Some(k)` for `k > 1` -- builds
`ThreadPool::default()`, to which the configured count is never passed. -/
inductive ExecMode where
  | sequential
  | default_pool
  deriving DecidableEq, Repr

/-- The mode decision of src/lib.rs line 296. -/
def exec_mode (args : Arguments) : ExecMode :=
  if args.num_threads == some 1 then ExecMode.sequential else ExecMode.default_pool

/-- The order in which completions are handled: catalog order in the
sequential branch, channel-arrival order (the `arrival` parameter,
nondeterministic in reality) in the pool branch (src/lib.rs lines
296-338). -/
def delivered {D : Type} (args : Arguments) (tests : List (Test D))
    (runner : Test D → Outcome) (arrival : List (Test D × Outcome)) :
    List (Test D × Outcome) :=
  if args.num_threads == some 1 then completions_seq args tests runner else arrival

/-- The whole `run_tests` pipeline state (src/lib.rs lines 248-349):
filter pass, `--list` short-circuit returning a dummy empty conclusion,
then draining the delivered completions.  The first component is the
conclusion, the second the internal `failed_tests` vector that is handed
to the failure printer. -/
def run_tests_state {D : Type} (args : Arguments) (tests : List (Test D))
    (runner : Test D → Outcome) (arrival : List (Test D × Outcome)) :
    Conclusion × List (Test D × Option String) :=
  if args.list then (Conclusion.empty, [])
  else drain (apply_filter args tests).2 (delivered args tests runner arrival)

/-- The value `run_tests` returns to its caller (src/lib.rs line 348):
only the `Conclusion`.  The `failed_tests` vector is local to the function
and is only printed, never returned. -/
def run_tests {D : Type} (args : Arguments) (tests : List (Test D))
    (runner : Test D → Outcome) (arrival : List (Test D × Outcome)) : Conclusion :=
  (run_tests_state args tests runner arrival).1

/-- The format the printer is constructed with (src/printer.rs lines
38-42): terse when `--quiet`, otherwise the `--format` value, defaulting
to pretty. -/
def printer_format (args : Arguments) : FormatSetting :=
  if args.quiet then FormatSetting.Terse
  else args.format.getD FormatSetting.Pretty

/-- The summary line written by `Printer::print_summary` (src/printer.rs
lines 143-171).  The measured slot is the hard-coded `-1` of the source
(marked `// TODO` there), not a computed count.  Color escape sequences
are omitted: styling is outside the modelled core. -/
def summary_line (conclusion : Conclusion) : String :=
  "test result: "
    ++ (if conclusion.has_failed then "FAILED" else "ok")
    ++ ". " ++ toString conclusion.num_passed ++ " passed; "
    ++ toString conclusion.num_failed ++ " failed; "
    ++ toString conclusion.num_ignored ++ " ignored; "
    ++ toString (-1 : Int) ++ " measured; "
    ++ toString conclusion.num_filtered_out ++ " filtered out"

/-- One unit of renderer output, at event granularity.  Textual styling is
out of scope; what matters for the claims is which events are produced and
in which order. -/
inductive OutputEvent where
  | title (num_tests : Nat)
  | test_line (name kind : String)
  | outcome_line (o : Outcome)
  | list_line (name : String)
  | failures (pairs : List (String × Option String))
  | summary (line : String)
  deriving DecidableEq, Repr

/-- `Printer::print_title` (src/printer.rs lines 75-89): writes the
"running N test(s)" line for pretty and terse; for `Json` it hits
`unimplemented!()` -- a panic, modelled as an error -- before writing
anything. -/
def print_title (format : FormatSetting) (num_tests : Nat) :
    Except Unit (List OutputEvent) :=
  match format with
  | FormatSetting.Pretty => Except.ok [OutputEvent.title num_tests]
  | FormatSetting.Terse => Except.ok [OutputEvent.title num_tests]
  | FormatSetting.Json => Except.error ()

/-- Per-test renderer events (src/printer.rs `print_test` lines 93-117 and
`print_single_outcome` lines 121-140): pretty mode announces the test and
then its outcome, terse mode prints only the outcome character.  The
`Json` case is unreachable in the pipeline because `print_title` has
already panicked. -/
def per_test_events {D : Type} (format : FormatSetting)
    (completions : List (Test D × Outcome)) : List OutputEvent :=
  match format with
  | FormatSetting.Pretty =>
      completions.foldr
        (fun x acc =>
          OutputEvent.test_line x.1.name x.1.kind :: OutputEvent.outcome_line x.2 :: acc)
        []
  | FormatSetting.Terse => completions.map (fun x => OutputEvent.outcome_line x.2)
  | FormatSetting.Json => []

/-- Modelled from the spec: `print_list` is called by `run_tests`
(src/lib.rs line 268) but its definition is absent from src/printer.rs.
The spec (§4.2 step 2) says listing renders the remaining set's names,
respecting ignored-inclusion, as a pure side query that bypasses
execution, with no fatal path. -/
def print_list_events {D : Type} (tests : List (Test D)) (ignored : Bool) :
    List OutputEvent :=
  (tests.filter (fun t => !ignored || t.is_ignored)).map
    (fun t => OutputEvent.list_line t.name)

/-- Modelled from the spec: `print_failures` is called by `run_tests`
(src/lib.rs line 343) but its definition is absent from src/printer.rs.
The spec (§4.2 step 4, §7) says the failure listing shows each failed
test's name and optional message, after all per-test events. -/
def failure_events {D : Type} (failed : List (Test D × Option String)) :
    List OutputEvent :=
  if failed.isEmpty then []
  else [OutputEvent.failures (failed.map (fun x => (x.1.name, x.2)))]

/-- The observable result of one `run_tests` invocation, renderer output
included.  `result = none` models the function panicking (via
`unimplemented!()`) before producing a conclusion. -/
structure IoRun (D : Type) where
  events : List OutputEvent
  invoked : List (Test D)
  result : Option Conclusion
  deriving DecidableEq, Repr

/-- The `run_tests` pipeline with its renderer calls (src/lib.rs lines
248-349 against src/printer.rs): filter pass, `--list` short-circuit
(printing the list and returning a dummy conclusion), `print_title`
(panicking on `Json` before any output), then per-test events in delivery
order, the failure listing when non-empty, and the summary line. -/
def run_tests_io {D : Type} (args : Arguments) (tests : List (Test D))
    (runner : Test D → Outcome) (arrival : List (Test D × Outcome)) : IoRun D :=
  let fp := apply_filter args tests
  let format := printer_format args
  if args.list then
    { events := print_list_events fp.1 args.ignored
      invoked := []
      result := some Conclusion.empty }
  else
    match print_title format fp.1.length with
    | Except.error _ => { events := [], invoked := [], result := none }
    | Except.ok title_events =>
        let st := drain fp.2 (delivered args tests runner arrival)
        { events := title_events
            ++ per_test_events format (delivered args tests runner arrival)
            ++ failure_events st.2
            ++ [OutputEvent.summary (summary_line st.1)]
          invoked := invoked_tests args tests
          result := some st.1 }

/-- The conclusion component of one `handle_outcome` step; it never depends
on the accumulated failure list. -/
def conc_step {D : Type} (c : Conclusion) (x : Test D × Outcome) : Conclusion :=
  (handle_outcome (c, []) x).1

/-- The failure pair one completion contributes (src/lib.rs line 287):
`(test, msg)` for a `Failed` outcome, nothing otherwise. -/
def failed_pair {D : Type} (x : Test D × Outcome) : Option (Test D × Option String) :=
  match x.2 with
  | Outcome.Failed msg => some (x.1, msg)
  | _ => none

lemma handle_outcome_fst {D : Type} (c : Conclusion)
    (f : List (Test D × Option String)) (x : Test D × Outcome) :
    (handle_outcome (c, f) x).1 = conc_step c x := by
  obtain ⟨t, o⟩ := x
  cases o <;> rfl

lemma handle_outcome_snd {D : Type} (c : Conclusion)
    (f : List (Test D × Option String)) (x : Test D × Outcome) :
    (handle_outcome (c, f) x).2 = f ++ (failed_pair x).toList := by
  obtain ⟨t, o⟩ := x
  cases o <;> simp [handle_outcome, failed_pair]

lemma foldl_handle_outcome_fst {D : Type} (c : Conclusion)
    (f : List (Test D × Option String)) (l : List (Test D × Outcome)) :
    (l.foldl handle_outcome (c, f)).1 = l.foldl conc_step c := by
  induction l generalizing c f with
  | nil => rfl
  | cons x xs ih =>
      rw [List.foldl_cons, List.foldl_cons]
      have hx : handle_outcome (c, f) x
          = ((handle_outcome (c, f) x).1, (handle_outcome (c, f) x).2) := rfl
      rw [hx, ih, handle_outcome_fst]

lemma foldl_handle_outcome_snd {D : Type} (c : Conclusion)
    (f : List (Test D × Option String)) (l : List (Test D × Outcome)) :
    (l.foldl handle_outcome (c, f)).2 = f ++ l.filterMap failed_pair := by
  induction l generalizing c f with
  | nil => simp
  | cons x xs ih =>
      rw [List.foldl_cons]
      have hx : handle_outcome (c, f) x
          = ((handle_outcome (c, f) x).1, (handle_outcome (c, f) x).2) := rfl
      rw [hx, ih, handle_outcome_snd, List.filterMap_cons]
      cases hfp : failed_pair x <;> simp [hfp]

lemma conc_step_comm {D : Type} (c : Conclusion) (x y : Test D × Outcome) :
    conc_step (conc_step c x) y = conc_step (conc_step c y) x := by
  obtain ⟨tx, ox⟩ := x
  obtain ⟨ty, oy⟩ := y
  cases ox <;> cases oy <;> cases hx : tx.is_bench <;> cases hy : ty.is_bench <;>
    simp [conc_step, handle_outcome, hx, hy]

lemma foldl_conc_step_perm {D : Type} {l₁ l₂ : List (Test D × Outcome)}
    (h : l₁.Perm l₂) : ∀ c : Conclusion, l₁.foldl conc_step c = l₂.foldl conc_step c := by
  induction h with
  | nil => intro c; rfl
  | cons x _ ih => intro c; rw [List.foldl_cons, List.foldl_cons, ih]
  | swap x y l => intro c; rw [List.foldl_cons, List.foldl_cons, List.foldl_cons,
      List.foldl_cons, conc_step_comm]
  | trans _ _ ih₁ ih₂ => intro c; rw [ih₁, ih₂]

/-- Field-by-field description of the aggregation fold: `num_filtered_out`
is untouched, each of the other counters counts the matching completions. -/
lemma foldl_conc_step_fields {D : Type} (c : Conclusion) (l : List (Test D × Outcome)) :
    l.foldl conc_step c =
      { num_filtered_out := c.num_filtered_out
        num_passed := c.num_passed + l.countP (fun x => x.2.is_passed)
        num_failed := c.num_failed + l.countP (fun x => x.2.is_failed)
        num_ignored := c.num_ignored + l.countP (fun x => x.2.is_ign)
        num_benches := c.num_benches + l.countP (fun x => x.1.is_bench) } := by
  induction l generalizing c with
  | nil => simp
  | cons x xs ih =>
      rw [List.foldl_cons, ih]
      obtain ⟨t, o⟩ := x
      cases o <;> cases hb : t.is_bench <;>
        simp [conc_step, handle_outcome, hb, List.countP_cons,
          Outcome.is_passed, Outcome.is_failed, Outcome.is_ign] <;>
        omega

/-- Every completion is counted by exactly one of the four outcome
predicates. -/
lemma countP_outcomes_partition {D : Type} (l : List (Test D × Outcome)) :
    l.countP (fun x => x.2.is_passed) + l.countP (fun x => x.2.is_failed)
      + l.countP (fun x => x.2.is_ign) + l.countP (fun x => x.2.is_measured)
      = l.length := by
  induction l with
  | nil => rfl
  | cons x xs ih =>
      obtain ⟨t, o⟩ := x
      cases o <;>
        simp [List.countP_cons, Outcome.is_passed, Outcome.is_failed,
          Outcome.is_ign, Outcome.is_measured] at ih ⊢ <;> omega

lemma length_filterMap_failed_pair {D : Type} (l : List (Test D × Outcome)) :
    (l.filterMap failed_pair).length = l.countP (fun x => x.2.is_failed) := by
  induction l with
  | nil => rfl
  | cons x xs ih =>
      obtain ⟨t, o⟩ := x
      cases o <;> simp [List.filterMap_cons, failed_pair, List.countP_cons,
        Outcome.is_failed, ih]

lemma apply_filter_length {D : Type} (args : Arguments) (tests : List (Test D)) :
    (apply_filter args tests).2 + (apply_filter args tests).1.length
      = tests.length := by
  unfold apply_filter
  split
  · simp only []
    have hle : (tests.filter (fun t => !(args.is_filtered_out t))).length
        ≤ tests.length := List.length_filter_le _ _
    omega
  · simp

lemma delivered_perm {D : Type} (args : Arguments) (tests : List (Test D))
    (runner : Test D → Outcome) (arrival : List (Test D × Outcome))
    (harr : arrival.Perm (completions_seq args tests runner)) :
    (delivered args tests runner arrival).Perm (completions_seq args tests runner) := by
  unfold delivered
  split
  · exact List.Perm.refl _
  · exact harr

/-- A default configuration forced onto the sequential path
(`--test-threads=1`). -/
def cfg_seq : Arguments := { Arguments.default with num_threads := some 1 }

/-- Claim C2: classification is decided in this order -- FilteredOut first
(filter string fails to match, substring or full equality under `exact`,
or some skip pattern matches), computed independently of the ignore/bench
flags; otherwise Ignored exactly under the three flag conditions;
otherwise Runnable.  The pipeline's classifier coincides with the claim's
description, and `is_filtered_out` reads none of the ignore/bench flags. -/
theorem C2_classify_matches_spec {D : Type} (args : Arguments) (t : Test D) :
    classify args t = spec_classify args t ∧
    (∀ b₁ b₂ b₃ b₄, Arguments.is_filtered_out
          { args with ignored := b₁, test := b₂, bench := b₃, include_ignored := b₄ } t
        = args.is_filtered_out t) := by
  constructor
  · unfold classify spec_classify Arguments.is_filtered_out Arguments.is_ignored spec_matches
    cases hf : args.filter_string <;> cases he : args.exact <;> simp [hf, he, bne]
  · intro b₁ b₂ b₃ b₄
    cases args
    rfl

def c3_args : Arguments := { Arguments.default with filter_string := some "a" }

def c3_tests : List (Test Unit) :=
  [Test.test "alpha", Test.test "beta", Test.test "calpha"]

/-- Claim C3 is false on the code: with filter string "a", exact off, and
catalog ["alpha", "beta", "calpha"], the name "beta" also contains the
substring "a" (its last character), so `is_filtered_out` retains it too:
the runnable set is not {"alpha", "calpha"} and the filtered-out count is
not 1. -/
theorem C3_counterexample :
    ¬((c3_tests.filter (fun t => decide (classify c3_args t = TestClass.Runnable))).map
          (fun t => t.name) = ["alpha", "calpha"]
      ∧ (apply_filter c3_args c3_tests).2 = 1) := by decide

/-- Claim C3 amended: with filter string "a", exact off, and catalog
["alpha", "beta", "calpha"], every name contains "a", so the runnable set
is all three names and the filtered-out count is 0. -/
theorem C3_substring_filter_scenario :
    (c3_tests.filter (fun t => decide (classify c3_args t = TestClass.Runnable))).map
        (fun t => t.name) = ["alpha", "beta", "calpha"]
    ∧ (apply_filter c3_args c3_tests).2 = 0 := by decide

/-- Claim C6: aggregation of outcomes into the summary is
order-independent: folding any two permutations of a completion list
through `handle_outcome` from the empty summary yields the same counts
(the failure list may differ in order, the `Conclusion` may not). -/
theorem C6_aggregation_order_independent {D : Type}
    (l₁ l₂ : List (Test D × Outcome)) (h : l₁.Perm l₂) :
    (l₁.foldl handle_outcome (Conclusion.empty, [])).1
      = (l₂.foldl handle_outcome (Conclusion.empty, [])).1 := by
  rw [foldl_handle_outcome_fst, foldl_handle_outcome_fst]
  exact foldl_conc_step_perm h _

/-- Witness for C6 at a concrete two-element permutation. -/
theorem C6_aggregation_order_independent_witness :
    (([(Test.test "a", Outcome.Passed), (Test.bench "b", Outcome.Failed (some "x"))] :
          List (Test Unit × Outcome)).foldl handle_outcome (Conclusion.empty, [])).1
      = (([(Test.bench "b", Outcome.Failed (some "x")), (Test.test "a", Outcome.Passed)] :
          List (Test Unit × Outcome)).foldl handle_outcome (Conclusion.empty, [])).1 :=
  C6_aggregation_order_independent _ _ (by decide)

/-- Claim C7 (code_bug): the summary line never shows the measured count;
src/printer.rs line 164 hard-codes `-1` with a `// TODO` comment.  A run
whose single benchmark was successfully measured prints "-1 measured"
where the claim requires the real count 1. -/
theorem C7_summary_measured_is_placeholder :
    summary_line (run_tests cfg_seq [Test.bench "b"] (fun _ => Outcome.Measured 10 2) [])
      = "test result: ok. 0 passed; 0 failed; 0 ignored; -1 measured; 0 filtered out" := by
  rfl

/-- Claim C10: the include_ignored flag is never consulted by the engine:
flipping it changes neither the run's summary and failure list, nor the
classification of any descriptor, nor the set of tests the runner is
invoked on. -/
theorem C10_include_ignored_never_consulted {D : Type} (args : Arguments) (b : Bool)
    (tests : List (Test D)) (runner : Test D → Outcome)
    (arrival : List (Test D × Outcome)) (t : Test D) :
    run_tests_state { args with include_ignored := b } tests runner arrival
        = run_tests_state args tests runner arrival
    ∧ classify { args with include_ignored := b } t = classify args t
    ∧ invoked_tests { args with include_ignored := b } tests = invoked_tests args tests := by
  cases args
  exact ⟨rfl, rfl, rfl⟩

def c1_tests : List (Test Unit) := [Test.bench "b"]

/-- Claim C1 is false on the code: a catalog with one benchmark whose
outcome is `Passed` yields a summary whose five counters sum to 2, not to
the catalog size 1 -- `handle_outcome` increments `num_benches` for every
benchmark in addition to the outcome counter, and increments nothing at
all for a `Measured` outcome, so the summary's fifth counter is a bench
counter, not a measured counter. -/
theorem C1_counterexample :
    c1_tests.length = 1
    ∧ (run_tests cfg_seq c1_tests (fun _ => Outcome.Passed) []).num_filtered_out
        + (run_tests cfg_seq c1_tests (fun _ => Outcome.Passed) []).num_passed
        + (run_tests cfg_seq c1_tests (fun _ => Outcome.Passed) []).num_failed
        + (run_tests cfg_seq c1_tests (fun _ => Outcome.Passed) []).num_ignored
        + (run_tests cfg_seq c1_tests (fun _ => Outcome.Passed) []).num_benches
        ≠ c1_tests.length := by decide

/-- Claim C1 amended: for every non-list run, in both modes,
`num_filtered_out + num_passed + num_failed + num_ignored + M` equals the
catalog size, where `M` is the number of evaluated tests whose outcome was
`Measured` -- a quantity the returned summary does not contain; its
`num_benches` field instead counts benchmarks regardless of outcome. -/
theorem C1_amended_count_invariant {D : Type} (args : Arguments)
    (tests : List (Test D)) (runner : Test D → Outcome)
    (arrival : List (Test D × Outcome)) (hl : args.list = false)
    (harr : arrival.Perm (completions_seq args tests runner)) :
    (run_tests args tests runner arrival).num_filtered_out
      + (run_tests args tests runner arrival).num_passed
      + (run_tests args tests runner arrival).num_failed
      + (run_tests args tests runner arrival).num_ignored
      + (completions_seq args tests runner).countP (fun x => x.2.is_measured)
      = tests.length := by
  have hperm := delivered_perm args tests runner arrival harr
  have hrun : run_tests args tests runner arrival
      = (delivered args tests runner arrival).foldl conc_step
          { Conclusion.empty with num_filtered_out := (apply_filter args tests).2 } := by
    unfold run_tests run_tests_state
    rw [if_neg (by simp [hl])]
    unfold drain
    rw [foldl_handle_outcome_fst]
  have hp := hperm.countP_eq (fun x => x.2.is_passed)
  have hf := hperm.countP_eq (fun x => x.2.is_failed)
  have hi := hperm.countP_eq (fun x => x.2.is_ign)
  have hpart := countP_outcomes_partition (completions_seq args tests runner)
  have hlen : (completions_seq args tests runner).length
      = (apply_filter args tests).1.length := by
    unfold completions_seq
    exact List.length_map _ _
  have hfl := apply_filter_length args tests
  rw [hrun, foldl_conc_step_fields]
  dsimp only
  rw [hp, hf, hi]
  simp only [Conclusion.empty]
  omega

/-- Witness for the amended C1 on a one-benchmark catalog whose outcome is
`Measured`. -/
theorem C1_amended_count_invariant_witness :
    (run_tests cfg_seq c1_tests (fun _ => Outcome.Measured 10 2)
        (completions_seq cfg_seq c1_tests (fun _ => Outcome.Measured 10 2))).num_filtered_out
      + (run_tests cfg_seq c1_tests (fun _ => Outcome.Measured 10 2)
        (completions_seq cfg_seq c1_tests (fun _ => Outcome.Measured 10 2))).num_passed
      + (run_tests cfg_seq c1_tests (fun _ => Outcome.Measured 10 2)
        (completions_seq cfg_seq c1_tests (fun _ => Outcome.Measured 10 2))).num_failed
      + (run_tests cfg_seq c1_tests (fun _ => Outcome.Measured 10 2)
        (completions_seq cfg_seq c1_tests (fun _ => Outcome.Measured 10 2))).num_ignored
      + (completions_seq cfg_seq c1_tests (fun _ => Outcome.Measured 10 2)).countP
          (fun x => x.2.is_measured)
      = c1_tests.length :=
  C1_amended_count_invariant cfg_seq c1_tests (fun _ => Outcome.Measured 10 2) _
    rfl (List.Perm.refl _)

def c4_args_zero : Arguments := { Arguments.default with num_threads := some 0 }

/-- Claim C4 is false on the code: src/lib.rs line 296 compares the worker
count only against `Some(1)`, so a count of 0 (and an absent count) takes
the thread-pool branch, not the sequential one; concretely, with count 0
the failure list follows the channel-arrival order, here the reverse of
catalog order. -/
theorem C4_counterexample :
    exec_mode c4_args_zero ≠ ExecMode.sequential
    ∧ exec_mode { Arguments.default with num_threads := none } ≠ ExecMode.sequential
    ∧ (run_tests_state c4_args_zero [Test.test "a", Test.test "b"]
          (fun _ => Outcome.Failed none)
          [(Test.test "b", Outcome.Failed none), (Test.test "a", Outcome.Failed none)]).2
        = [(Test.test "b", none), (Test.test "a", none)]
    ∧ ([(Test.test "b", Outcome.Failed none), (Test.test "a", Outcome.Failed none)]).Perm
        (completions_seq c4_args_zero [Test.test "a", Test.test "b"]
          (fun _ => Outcome.Failed none)) := by decide

/-- Claim C4 amended: the sequential path is chosen exactly when the
worker count is `Some 1` (and then the delivery order is the catalog
order); every other value -- absent, 0, or greater than 1 -- takes the
pool branch, whose behavior does not depend on the configured count, since
the source builds `ThreadPool::default()` without passing the count. -/
theorem C4_amended_mode_selection {D : Type} (args : Arguments)
    (n₁ n₂ : Option Nat) (h₁ : n₁ ≠ some 1) (h₂ : n₂ ≠ some 1)
    (tests : List (Test D)) (runner : Test D → Outcome)
    (arrival : List (Test D × Outcome)) :
    (exec_mode args = ExecMode.sequential ↔ args.num_threads = some 1)
    ∧ run_tests_state { args with num_threads := n₁ } tests runner arrival
        = run_tests_state { args with num_threads := n₂ } tests runner arrival
    ∧ (args.num_threads = some 1 →
        delivered args tests runner arrival = completions_seq args tests runner) := by
  have e₁ : (n₁ == some 1) = false := beq_eq_false_iff_ne.mpr h₁
  have e₂ : (n₂ == some 1) = false := beq_eq_false_iff_ne.mpr h₂
  refine ⟨?_, ?_, ?_⟩
  · constructor
    · intro h
      by_contra hne
      have hb : (args.num_threads == some 1) = false := beq_eq_false_iff_ne.mpr hne
      simp [exec_mode, hb] at h
    · intro h
      simp [exec_mode, h]
  · cases args
    unfold run_tests_state delivered apply_filter completions_seq outcome_of
    dsimp only
    rw [e₁, e₂]
    rfl
  · intro h
    simp [delivered, h]

/-- Witness for the amended C4 at concrete counts none and 0. -/
theorem C4_amended_mode_selection_witness :
    (exec_mode cfg_seq = ExecMode.sequential ↔ cfg_seq.num_threads = some 1)
    ∧ run_tests_state { cfg_seq with num_threads := none } [Test.test "t"]
          (fun _ => Outcome.Passed) []
        = run_tests_state { cfg_seq with num_threads := some 0 } [Test.test "t"]
          (fun _ => Outcome.Passed) []
    ∧ (cfg_seq.num_threads = some 1 →
        delivered cfg_seq [Test.test "t"] (fun _ => Outcome.Passed) []
          = completions_seq cfg_seq [Test.test "t"] (fun _ => Outcome.Passed)) :=
  C4_amended_mode_selection cfg_seq none (some 0) (by decide) (by decide)
    [Test.test "t"] (fun _ => Outcome.Passed) []

def c5_args : Arguments := { Arguments.default with ignored := true, num_threads := some 1 }

def c5_test : Test Unit :=
  { name := "t", kind := "", is_ignored := true, is_bench := false, data := () }

/-- Claim C5 is false as stated: the engine consults the `ignored` flag
(`--ignored`), never `include_ignored`.  In a run whose configuration has
`include_ignored = false` but `ignored = true`, a descriptor with
`is_ignored = true` that is not filtered out is evaluated (it ends up in
the invoked set) and receives the runner's outcome `Passed`, not
`Outcome::Ignored`. -/
theorem C5_counterexample :
    c5_args.include_ignored = false
    ∧ c5_test.is_ignored = true
    ∧ c5_args.is_filtered_out c5_test = false
    ∧ (run_tests c5_args [c5_test] (fun _ => Outcome.Passed) []).num_ignored = 0
    ∧ (run_tests c5_args [c5_test] (fun _ => Outcome.Passed) []).num_passed = 1
    ∧ invoked_tests c5_args [c5_test] = [c5_test] := by decide

/-- Claim C5 amended: for every catalog run with the `ignored` flag unset
(the flag the code consults; `include_ignored` has no effect), every
descriptor with `is_ignored = true` that survives filtering receives the
outcome `Outcome::Ignored` -- it appears with that outcome both in the
sequential completion list and in any channel-arrival order -- and the
evaluation function is never invoked on it. -/
theorem C5_amended_ignored_short_circuit {D : Type} (args : Arguments)
    (tests : List (Test D)) (runner : Test D → Outcome)
    (arrival : List (Test D × Outcome)) (t : Test D)
    (hig : args.ignored = false) (ht : t.is_ignored = true)
    (hmem : t ∈ (apply_filter args tests).1)
    (harr : arrival.Perm (completions_seq args tests runner)) :
    outcome_of args runner t = Outcome.Ignored
    ∧ t ∉ invoked_tests args tests
    ∧ (t, Outcome.Ignored) ∈ completions_seq args tests runner
    ∧ (t, Outcome.Ignored) ∈ arrival := by
  have hi : args.is_ignored t = true := by
    unfold Arguments.is_ignored
    rw [ht, hig]
    simp
  have ho : outcome_of args runner t = Outcome.Ignored := by
    unfold outcome_of
    rw [hi]
    simp
  have hc : (t, Outcome.Ignored) ∈ completions_seq args tests runner := by
    unfold completions_seq
    exact List.mem_map.mpr ⟨t, hmem, by rw [ho]⟩
  refine ⟨ho, ?_, hc, harr.mem_iff.mpr hc⟩
  unfold invoked_tests
  simp [List.mem_filter, hi]

def c5w_test : Test Unit :=
  { name := "i", kind := "", is_ignored := true, is_bench := false, data := () }

/-- Witness for the amended C5 on a one-test catalog. -/
theorem C5_amended_ignored_short_circuit_witness :
    outcome_of cfg_seq (fun _ => Outcome.Passed) c5w_test = Outcome.Ignored
    ∧ c5w_test ∉ invoked_tests cfg_seq [c5w_test]
    ∧ (c5w_test, Outcome.Ignored) ∈ completions_seq cfg_seq [c5w_test] (fun _ => Outcome.Passed)
    ∧ (c5w_test, Outcome.Ignored)
        ∈ completions_seq cfg_seq [c5w_test] (fun _ => Outcome.Passed) :=
  C5_amended_ignored_short_circuit cfg_seq [c5w_test] (fun _ => Outcome.Passed)
    (completions_seq cfg_seq [c5w_test] (fun _ => Outcome.Passed)) c5w_test
    rfl rfl (by decide) (List.Perm.refl _)

/-- Claim C8 is false on the code: the signature of `run_tests`
(src/lib.rs lines 248-252) returns only a `Conclusion` (line 348); the
`failed_tests` vector is local and only printed.  Two runs that differ
only in their failure messages return identical values, so the returned
value cannot contain the (descriptor, failure message) list, although a
failure did occur. -/
theorem C8_counterexample :
    run_tests cfg_seq [Test.test "t"] (fun _ => Outcome.Failed (some "boom")) []
      = run_tests cfg_seq [Test.test "t"] (fun _ => Outcome.Failed (some "other")) []
    ∧ (run_tests cfg_seq [Test.test "t"] (fun _ => Outcome.Failed (some "boom")) []).num_failed
      = 1 := by decide

/-- Claim C8 amended: the run returns only the summary to the caller; the
(descriptor, message) pairs of every `Failed` outcome are accumulated
internally, in delivery order, for the printer's failure listing, and the
returned `num_failed` counts exactly those pairs. -/
theorem C8_amended_failures_not_returned {D : Type} (args : Arguments)
    (tests : List (Test D)) (runner : Test D → Outcome)
    (arrival : List (Test D × Outcome)) (hl : args.list = false) :
    (run_tests_state args tests runner arrival).2
        = (delivered args tests runner arrival).filterMap failed_pair
    ∧ (run_tests args tests runner arrival).num_failed
        = ((delivered args tests runner arrival).filterMap failed_pair).length := by
  constructor
  · unfold run_tests_state
    rw [if_neg (by simp [hl])]
    unfold drain
    rw [foldl_handle_outcome_snd]
    simp
  · unfold run_tests run_tests_state
    rw [if_neg (by simp [hl])]
    unfold drain
    rw [foldl_handle_outcome_fst, foldl_conc_step_fields, length_filterMap_failed_pair]
    simp [Conclusion.empty]

/-- Witness for the amended C8 on a one-test catalog with a failing
runner. -/
theorem C8_amended_failures_not_returned_witness :
    (run_tests_state cfg_seq [Test.test "t"] (fun _ => Outcome.Failed (some "boom")) []).2
        = (delivered cfg_seq [Test.test "t"] (fun _ => Outcome.Failed (some "boom")) []).filterMap
            failed_pair
    ∧ (run_tests cfg_seq [Test.test "t"] (fun _ => Outcome.Failed (some "boom")) []).num_failed
        = ((delivered cfg_seq [Test.test "t"] (fun _ => Outcome.Failed (some "boom")) []).filterMap
            failed_pair).length :=
  C8_amended_failures_not_returned cfg_seq [Test.test "t"]
    (fun _ => Outcome.Failed (some "boom")) [] rfl

def c9_args : Arguments :=
  { Arguments.default with format := some FormatSetting.Json, list := true }

/-- Claim C9 is false as universally stated: when the configuration also
requests `--list`, `run_tests` takes the listing short-circuit (src/lib.rs
lines 267-270) before `print_title` is ever reached, so no fatal error
occurs: the run returns the dummy empty conclusion and produces the
listing output despite the requested JSON format. -/
theorem C9_counterexample :
    (run_tests_io c9_args [Test.test "t"] (fun _ => Outcome.Passed) []).result
        = some Conclusion.empty
    ∧ (run_tests_io c9_args [Test.test "t"] (fun _ => Outcome.Passed) []).events
        = [OutputEvent.list_line "t"] := by decide

/-- Claim C9 amended: for every catalog and every configuration that
carries the JSON format (format = Json, quiet unset -- as resolved by the
printer) and does not request list-only mode, the run panics inside
`print_title`'s `unimplemented!()` before any test is executed, before the
title line, and before any output at all; moreover this version's CLI
parser rejects the string "json" outright, so the format cannot even be
requested through arguments. -/
theorem C9_amended_json_fatal {D : Type} (args : Arguments)
    (tests : List (Test D)) (runner : Test D → Outcome)
    (arrival : List (Test D × Outcome))
    (hj : args.format = some FormatSetting.Json)
    (hq : args.quiet = false) (hl : args.list = false) :
    run_tests_io args tests runner arrival
        = { events := [], invoked := [], result := none }
    ∧ FormatSetting.from_str "json" = Except.error "invalid output format" := by
  refine ⟨?_, rfl⟩
  have hfmt : printer_format args = FormatSetting.Json := by
    simp [printer_format, hq, hj]
  simp [run_tests_io, hl, hfmt, print_title]

def c9w_args : Arguments := { Arguments.default with format := some FormatSetting.Json }

/-- Witness for the amended C9 at a concrete non-list JSON
configuration. -/
theorem C9_amended_json_fatal_witness :
    run_tests_io c9w_args [Test.test "t"] (fun _ => Outcome.Passed) []
        = { events := [], invoked := [], result := none }
    ∧ FormatSetting.from_str "json" = Except.error "invalid output format" :=
  C9_amended_json_fatal c9w_args [Test.test "t"] (fun _ => Outcome.Passed) []
    rfl rfl rfl
